import Mathlib

/-!
# Verification of lambda-service-check

Shallow embedding of `lambda-service-check.js`, a liveliness checker that
resolves a hostname, connects to each address over TCP, starts TLS and checks
for an expected greeting banner, reporting each down host/IP at most once.

Conventions of the embedding:
* JavaScript strings are modelled as lists of UTF-16 code units
  (`List Nat`) where their length/indexing semantics matters (the greeting),
  and as Lean `String` where they are opaque identifiers or messages
  (hostnames, IPs, reasons).
* Node `Buffer`s are lists of bytes (`List Nat`, each `< 256` where relevant).
* `Buffer.prototype.toString()` (UTF-8 decoding with WHATWG replacement
  behaviour, as Node implements it) is modelled by `decodeUtf8`, defined with
  a fuel counter equal to the input length so that it is structurally
  recursive and kernel-computable; `decodeUtf8Go_fuel` shows the fuel is
  irrelevant once sufficient.
* `console.log(id + ": " + why.trim())` is modelled as appending the pair
  `(id, why.trim)` to the `log` field of the run state.
* Socket tear-down calls are recorded as explicit `SockAction`s:
  `client.destroy()` is `SockAction.destroy` (forcible), `client.end()` on the
  TLS socket is `SockAction.endTls` and `socket.end()` on the underlying TCP
  socket is `SockAction.endSocket` (both graceful FIN shutdowns).
-/

/-- Outcome of one invocation of the TLS `data` handler, naming the four
control-flow paths of the closure in `connect_tls_and_get_greeting`. -/
inductive Verdict
  | ignored
  | pending
  | matched
  | mismatched
deriving DecidableEq

/-- Socket tear-down actions performed by the handlers. `destroy` is the
forcible `client.destroy()`; `endTls` is the graceful `client.end()` on the
TLS socket; `endSocket` is the graceful `socket.end()` on the TCP socket. -/
inductive SockAction
  | destroy
  | endTls
  | endSocket
deriving DecidableEq

/-- The mutable run state of the program: the module-level arrays
`IPS_WITH_GREETING` and `HOSTS_REPORTED`, plus the console output, modelled
as the list of `(id, message)` pairs passed to `console.log`. -/
structure RunState where
  ipsWithGreeting : List String
  hostsReported : List String
  log : List (String × String)
deriving DecidableEq

/-- State at program start: both arrays are initialised to `[]`
(`const IPS_WITH_GREETING = []; const HOSTS_REPORTED = [];`) and nothing has
been logged. -/
def initialRunState : RunState := ⟨[], [], []⟩

/-- `service_is_down(id, why)`: scan `HOSTS_REPORTED` for `id`; if present,
return without doing anything; otherwise push `id` and log
`id + ": " + why.trim()`. -/
def service_is_down (id why : String) (st : RunState) : RunState :=
  if id ∈ st.hostsReported then st
  else
    { st with
      hostsReported := st.hostsReported ++ [id]
      log := st.log ++ [(id, why.trim)] }

/-- A UTF-8 continuation byte, `0x80`–`0xBF`. -/
def contByte (b : Nat) : Prop := 0x80 ≤ b ∧ b ≤ 0xBF

instance (b : Nat) : Decidable (contByte b) := by
  unfold contByte; infer_instance

/-- Valid second byte of a three-byte UTF-8 sequence with lead byte `b0`
(WHATWG table: `E0` requires `A0`–`BF`, `ED` requires `80`–`9F`, the rest
take any continuation byte). -/
def second3 (b0 b1 : Nat) : Prop :=
  (b0 = 0xE0 ∧ 0xA0 ≤ b1 ∧ b1 ≤ 0xBF) ∨
  (b0 = 0xED ∧ 0x80 ≤ b1 ∧ b1 ≤ 0x9F) ∨
  (b0 ≠ 0xE0 ∧ b0 ≠ 0xED ∧ contByte b1)

instance (b0 b1 : Nat) : Decidable (second3 b0 b1) := by
  unfold second3; infer_instance

/-- Valid second byte of a four-byte UTF-8 sequence with lead byte `b0`
(WHATWG table: `F0` requires `90`–`BF`, `F4` requires `80`–`8F`, the rest
take any continuation byte). -/
def second4 (b0 b1 : Nat) : Prop :=
  (b0 = 0xF0 ∧ 0x90 ≤ b1 ∧ b1 ≤ 0xBF) ∨
  (b0 = 0xF4 ∧ 0x80 ≤ b1 ∧ b1 ≤ 0x8F) ∨
  (b0 ≠ 0xF0 ∧ b0 ≠ 0xF4 ∧ contByte b1)

instance (b0 b1 : Nat) : Decidable (second4 b0 b1) := by
  unfold second4; infer_instance

/-- Decode one UTF-8 scalar (or one replacement for a maximal invalid
subpart) from lead byte `b0` followed by `t0`, returning the emitted UTF-16
code units (a surrogate pair for astral code points) and the remaining
bytes. Follows the WHATWG decoder Node uses for `Buffer.prototype.toString`:
invalid or truncated sequences emit `U+FFFD` and resume at the offending
byte. -/
def utf8Step (b0 : Nat) (t0 : List Nat) : List Nat × List Nat :=
  if b0 < 0x80 then ([b0], t0)
  else if b0 < 0xC2 then ([0xFFFD], t0)
  else if b0 < 0xE0 then
    match t0 with
    | [] => ([0xFFFD], [])
    | b1 :: t1 =>
      if contByte b1 then ([(b0 - 0xC0) * 0x40 + (b1 - 0x80)], t1)
      else ([0xFFFD], b1 :: t1)
  else if b0 < 0xF0 then
    match t0 with
    | [] => ([0xFFFD], [])
    | b1 :: t1 =>
      if second3 b0 b1 then
        match t1 with
        | [] => ([0xFFFD], [])
        | b2 :: t2 =>
          if contByte b2 then
            ([(b0 - 0xE0) * 0x1000 + (b1 - 0x80) * 0x40 + (b2 - 0x80)], t2)
          else ([0xFFFD], b2 :: t2)
      else ([0xFFFD], b1 :: t1)
  else if b0 < 0xF5 then
    match t0 with
    | [] => ([0xFFFD], [])
    | b1 :: t1 =>
      if second4 b0 b1 then
        match t1 with
        | [] => ([0xFFFD], [])
        | b2 :: t2 =>
          if contByte b2 then
            match t2 with
            | [] => ([0xFFFD], [])
            | b3 :: t3 =>
              if contByte b3 then
                ([0xD800 +
                    ((b0 - 0xF0) * 0x40000 + (b1 - 0x80) * 0x1000 +
                      (b2 - 0x80) * 0x40 + (b3 - 0x80) - 0x10000) / 0x400,
                  0xDC00 +
                    ((b0 - 0xF0) * 0x40000 + (b1 - 0x80) * 0x1000 +
                      (b2 - 0x80) * 0x40 + (b3 - 0x80) - 0x10000) % 0x400],
                 t3)
              else ([0xFFFD], b3 :: t3)
          else ([0xFFFD], b2 :: t2)
      else ([0xFFFD], b1 :: t1)
  else ([0xFFFD], t0)

/-- Fuel-indexed UTF-8 decoding loop. -/
def decodeUtf8Go : Nat → List Nat → List Nat
  | 0, _ => []
  | _ + 1, [] => []
  | fuel + 1, b :: t => (utf8Step b t).1 ++ decodeUtf8Go fuel (utf8Step b t).2

/-- `Buffer.prototype.toString()` of a byte list: UTF-8 decoding with
replacement, yielding UTF-16 code units. -/
def decodeUtf8 (l : List Nat) : List Nat := decodeUtf8Go l.length l

/-- Encode one UTF-16 code unit (combining with a following low surrogate
when `u` is a high surrogate) to UTF-8 bytes, returning the bytes and the
remaining units. Lone surrogates encode as the replacement character
`EF BF BD`, as Node does when converting a JS string to bytes. -/
def utf16Step (u : Nat) (t : List Nat) : List Nat × List Nat :=
  if u < 0x80 then ([u], t)
  else if u < 0x800 then ([0xC0 + u / 0x40, 0x80 + u % 0x40], t)
  else if 0xD800 ≤ u ∧ u < 0xDC00 then
    match t with
    | [] => ([0xEF, 0xBF, 0xBD], [])
    | lo :: t' =>
      if 0xDC00 ≤ lo ∧ lo < 0xE000 then
        ([0xF0 + (0x10000 + (u - 0xD800) * 0x400 + (lo - 0xDC00)) / 0x40000,
          0x80 + (0x10000 + (u - 0xD800) * 0x400 + (lo - 0xDC00)) / 0x1000 % 0x40,
          0x80 + (0x10000 + (u - 0xD800) * 0x400 + (lo - 0xDC00)) / 0x40 % 0x40,
          0x80 + (0x10000 + (u - 0xD800) * 0x400 + (lo - 0xDC00)) % 0x40],
         t')
      else ([0xEF, 0xBF, 0xBD], lo :: t')
  else if 0xDC00 ≤ u ∧ u < 0xE000 then ([0xEF, 0xBF, 0xBD], t)
  else ([0xE0 + u / 0x1000, 0x80 + u / 0x40 % 0x40, 0x80 + u % 0x40], t)

/-- Fuel-indexed UTF-8 encoding loop over UTF-16 code units. -/
def utf8EncodeGo : Nat → List Nat → List Nat
  | 0, _ => []
  | _ + 1, [] => []
  | fuel + 1, u :: t => (utf16Step u t).1 ++ utf8EncodeGo fuel (utf16Step u t).2

/-- The UTF-8 byte encoding of a JS string (list of UTF-16 code units):
the bytes a JS string literal denotes when viewed as a byte string. -/
def utf8Encode (l : List Nat) : List Nat := utf8EncodeGo l.length l

/-- The four control-flow paths of the `data` handler in
`connect_tls_and_get_greeting`, as a pure function of the greeting (UTF-16
code units), the accumulated buffer and the incoming chunk (bytes):

* `buf.length >= greeting.length` → return immediately (`ignored`);
* append the chunk; `buf.length < greeting.length` → return (`pending`);
* `buf.toString().substr(0, greeting.length) === greeting` → `matched`;
* otherwise `mismatched`.

Returns the new buffer and the path taken. -/
def feed (greeting buf data : List Nat) : List Nat × Verdict :=
  if greeting.length ≤ buf.length then (buf, .ignored)
  else if (buf ++ data).length < greeting.length then (buf ++ data, .pending)
  else if (decodeUtf8 (buf ++ data)).take greeting.length = greeting then
    (buf ++ data, .matched)
  else (buf ++ data, .mismatched)

/-- The full `data` handler of `connect_tls_and_get_greeting`, side effects
included: on a match, push `ip` onto `IPS_WITH_GREETING`, log
`ip + ": received greeting"` when verbose, and `client.end()`; on a
mismatch, `service_is_down(ip, "unexpected greeting")` and `socket.end()`;
on the other two paths, return with no effect. Returns the new buffer, the
new run state and the socket actions performed. -/
def tls_on_data (greeting : List Nat) (verbose : Bool) (ip : String)
    (data buf : List Nat) (st : RunState) :
    List Nat × RunState × List SockAction :=
  match feed greeting buf data with
  | (buf', .matched) =>
    (buf',
     { st with
       ipsWithGreeting := st.ipsWithGreeting ++ [ip]
       log := if verbose then st.log ++ [(ip, "received greeting")] else st.log },
     [.endTls])
  | (buf', .mismatched) =>
    (buf', service_is_down ip "unexpected greeting" st, [.endSocket])
  | (buf', _) => (buf', st, [])

/-- The `error` handler installed on the TLS socket in
`connect_tls_and_get_greeting`:
`service_is_down(ip, "TLS error: " + err.message)` then `socket.end()`. -/
def tls_on_error (ip msg : String) (st : RunState) :
    RunState × List SockAction :=
  (service_is_down ip ("TLS error: " ++ msg) st, [.endSocket])

/-- The `close` handler installed in `check_ip`: report
`"greeting not found"` unless `ip` is found in `IPS_WITH_GREETING`
(`findIndex` returning `-1` is modelled as non-membership). -/
def check_ip_on_close (ip : String) (st : RunState) : RunState :=
  if ip ∈ st.ipsWithGreeting then st
  else service_is_down ip "greeting not found" st

/-- The `error` handler installed in `check_ip`:
`service_is_down(ip, "error: " + err.message)` then `client.destroy()`. -/
def check_ip_on_error (ip msg : String) (st : RunState) :
    RunState × List SockAction :=
  (service_is_down ip ("error: " ++ msg) st, [.destroy])

/-- The `timeout` handler installed in `check_ip`:
`service_is_down(ip, "timeout")` then `client.destroy()`. -/
def check_ip_on_timeout (ip : String) (st : RunState) :
    RunState × List SockAction :=
  (service_is_down ip "timeout" st, [.destroy])

/-- Result of the `dns.lookup` callback: an error with its `code`, or the
list of resolved IPv4 addresses (the `.address` fields of the result
objects). -/
inductive DnsResult
  | err (code : String)
  | ok (ips : List String)
deriving DecidableEq

/-- The `dns.lookup` callback body of `check_host`: on error,
`service_is_down(hostname, "DNS error: " + err.code)` and return; on
success, call `check_ip` on each resolved address in order. Returns the new
run state and the list of addresses for which `check_ip` was launched. -/
def check_host (hostname : String) (res : DnsResult) (st : RunState) :
    RunState × List String :=
  match res with
  | .err code => (service_is_down hostname ("DNS error: " ++ code) st, [])
  | .ok ips => (st, ips)

/-- Fold a sequence of `(id, why)` calls through `service_is_down`. -/
def runReports (calls : List (String × String)) (st : RunState) : RunState :=
  calls.foldl (fun s c => service_is_down c.1 c.2 s) st

/-- The log entries whose identifier is `id`. -/
def logFor (id : String) (st : RunState) : List (String × String) :=
  st.log.filter (fun e => e.1 = id)

/-- Events a run's registered handlers can receive, each tagged with the ip
of the connection it fires on. -/
inductive Event
  | data (ip : String) (bytes : List Nat)
  | close (ip : String)
  | err (ip msg : String)
  | timeout (ip : String)
  | tlsErr (ip msg : String)

/-- Whole-system state: the shared `RunState` plus each connection's
accumulated buffer (the closure variable `buf`), keyed by ip. -/
structure SysState where
  run : RunState
  bufs : List (String × List Nat)
deriving DecidableEq

/-- Look up a connection's buffer; a connection starts with
`var buf = new Buffer(0)`, i.e. the empty byte list. -/
def getBuf : List (String × List Nat) → String → List Nat
  | [], _ => []
  | (k, v) :: t, ip => if k = ip then v else getBuf t ip

/-- Store a connection's buffer. -/
def setBuf : List (String × List Nat) → String → List Nat →
    List (String × List Nat)
  | [], ip, b => [(ip, b)]
  | (k, v) :: t, ip, b =>
    if k = ip then (ip, b) :: t else (k, v) :: setBuf t ip b

/-- System state at run start: fresh `RunState`, no buffers. -/
def initialSysState : SysState := ⟨initialRunState, []⟩

/-- Dispatch one event to the handler the source registers for it. -/
def stepEvent (greeting : List Nat) (verbose : Bool) (st : SysState)
    (e : Event) : SysState :=
  match e with
  | .data ip bytes =>
    let r := tls_on_data greeting verbose ip bytes (getBuf st.bufs ip) st.run
    { run := r.2.1, bufs := setBuf st.bufs ip r.1 }
  | .close ip => { st with run := check_ip_on_close ip st.run }
  | .err ip msg => { st with run := (check_ip_on_error ip msg st.run).1 }
  | .timeout ip => { st with run := (check_ip_on_timeout ip st.run).1 }
  | .tlsErr ip msg => { st with run := (tls_on_error ip msg st.run).1 }

/-- Run a sequence of events from a system state. -/
def runEvents (greeting : List Nat) (verbose : Bool) (evs : List Event)
    (st : SysState) : SysState :=
  evs.foldl (stepEvent greeting verbose) st

/-- Feed a list of chunks through the `data` handler's accumulate-and-compare
logic, returning the final buffer and the path taken on each chunk. -/
def feedAll (greeting : List Nat) : List Nat → List (List Nat) →
    List Nat × List Verdict
  | buf, [] => (buf, [])
  | buf, d :: ds =>
    ((feedAll greeting (feed greeting buf d).1 ds).1,
     (feed greeting buf d).2 :: (feedAll greeting (feed greeting buf d).1 ds).2)

/-- The first decisive (matched/mismatched) path among a run of feeds, if
any: the verdict the connection's handler has acted on. -/
def finalVerdict (vs : List Verdict) : Option Verdict :=
  vs.find? (fun v => v = Verdict.matched ∨ v = Verdict.mismatched)

/-- Final verdict of a connection that starts with an empty buffer and
receives `chunks` in order. -/
def runFeed (greeting : List Nat) (chunks : List (List Nat)) :
    Option Verdict :=
  finalVerdict (feedAll greeting [] chunks).2

/-- Modelled from the spec: the Greeting Matcher the specification
describes, operating on the expected greeting *as a byte string*
(`gBytes`): once the total received stream holds at least `len(G)` bytes,
the verdict is `matched` iff the first `len(G)` bytes equal `G`
byte-for-byte, `mismatched` otherwise; before that, no verdict. Used to
compare the source's decoded-string comparison against the spec's words. -/
def specByteVerdict (gBytes stream : List Nat) : Option Verdict :=
  if stream.length < gBytes.length then none
  else if stream.take gBytes.length = gBytes then some .matched
  else some .mismatched

/-- A sequence of scheduled runs: each run executes from a fresh
`initialRunState` (the source re-initialises `HOSTS_REPORTED` to `[]` at
process start, and one run is one process execution), so no reported state
flows from one run to the next. -/
def doRuns (runs : List (List (String × String))) : List RunState :=
  runs.map (fun calls => runReports calls initialRunState)

theorem utf8Step_rest_length_le (b0 : Nat) (t0 : List Nat) :
    (utf8Step b0 t0).2.length ≤ t0.length := by
  rcases t0 with _ | ⟨b1, _ | ⟨b2, _ | ⟨b3, t3⟩⟩⟩ <;>
    simp only [utf8Step] <;> split_ifs <;> (try simp)
  all_goals omega

theorem utf8Step_fst_ne_nil (b0 : Nat) (t0 : List Nat) :
    (utf8Step b0 t0).1 ≠ [] := by
  rcases t0 with _ | ⟨b1, _ | ⟨b2, _ | ⟨b3, t3⟩⟩⟩ <;>
    simp only [utf8Step] <;> split_ifs <;> simp

theorem utf8Step_ascii {b0 : Nat} (t0 : List Nat) (h : b0 < 0x80) :
    utf8Step b0 t0 = ([b0], t0) := by
  simp [utf8Step, h]

theorem utf8Step_fst_ge {b0 : Nat} (t0 : List Nat) (h : ¬ b0 < 0x80) :
    ∀ u ∈ (utf8Step b0 t0).1, 0x80 ≤ u := by
  rcases t0 with _ | ⟨b1, _ | ⟨b2, _ | ⟨b3, t3⟩⟩⟩ <;>
    simp only [utf8Step] <;> split_ifs <;>
      (try simp_all [second3, second4, contByte]) <;> omega

theorem decodeUtf8Go_fuel :
    ∀ (f1 : Nat) (l : List Nat) (f2 : Nat), l.length ≤ f1 → l.length ≤ f2 →
      decodeUtf8Go f1 l = decodeUtf8Go f2 l := by
  intro f1
  induction f1 with
  | zero =>
    intro l f2 h1 _
    have hl : l = [] := List.length_eq_zero.mp (Nat.le_zero.mp h1)
    subst hl
    cases f2 <;> rfl
  | succ f ih =>
    intro l f2 h1 h2
    cases l with
    | nil => cases f2 <;> rfl
    | cons b t =>
      cases f2 with
      | zero => simp at h2
      | succ f2' =>
        have ht1 : t.length ≤ f := by simp at h1; omega
        have ht2 : t.length ≤ f2' := by simp at h2; omega
        simp only [decodeUtf8Go]
        congr 1
        exact ih _ _
          (le_trans (utf8Step_rest_length_le b t) ht1)
          (le_trans (utf8Step_rest_length_le b t) ht2)

theorem decodeUtf8_nil : decodeUtf8 [] = [] := rfl

theorem decodeUtf8_cons (b : Nat) (t : List Nat) :
    decodeUtf8 (b :: t) = (utf8Step b t).1 ++ decodeUtf8 (utf8Step b t).2 := by
  show decodeUtf8Go (b :: t).length (b :: t) = _
  simp only [List.length_cons, decodeUtf8Go]
  congr 1
  exact decodeUtf8Go_fuel t.length (utf8Step b t).2 (utf8Step b t).2.length
    (utf8Step_rest_length_le b t) le_rfl

theorem decodeUtf8_ascii_cons {b : Nat} (t : List Nat) (h : b < 0x80) :
    decodeUtf8 (b :: t) = b :: decodeUtf8 t := by
  rw [decodeUtf8_cons, utf8Step_ascii t h]
  simp

theorem decodeUtf8_ascii_append {g : List Nat} (hg : ∀ c ∈ g, c < 0x80)
    (l : List Nat) : decodeUtf8 (g ++ l) = g ++ decodeUtf8 l := by
  induction g with
  | nil => simp
  | cons c g' ih =>
    simp only [List.cons_append]
    rw [decodeUtf8_ascii_cons _ (hg c (by simp)),
      ih (fun x hx => hg x (by simp [hx]))]

theorem decodeUtf8_cons_ascii_inv {l : List Nat} {c : Nat} {cs : List Nat}
    (h : decodeUtf8 l = c :: cs) (hc : c < 0x80) :
    ∃ l', l = c :: l' ∧ decodeUtf8 l' = cs := by
  cases l with
  | nil => simp [decodeUtf8_nil] at h
  | cons b t =>
    rw [decodeUtf8_cons] at h
    by_cases hb : b < 0x80
    · rw [utf8Step_ascii t hb] at h
      simp only [List.cons_append, List.nil_append] at h
      obtain ⟨h1, h2⟩ : b = c ∧ decodeUtf8 t = cs := by
        constructor <;> [exact (List.cons.injEq .. ▸ h).1;
          exact (List.cons.injEq .. ▸ h).2]
      exact ⟨t, by rw [h1], h2⟩
    · obtain ⟨u, us, hu⟩ := List.exists_cons_of_ne_nil (utf8Step_fst_ne_nil b t)
      have hge : 0x80 ≤ u := utf8Step_fst_ge t hb u (by rw [hu]; simp)
      rw [hu] at h
      simp only [List.cons_append] at h
      have : u = c := (List.cons.injEq .. ▸ h).1
      omega

theorem decodeUtf8_take_ascii {g : List Nat} (hg : ∀ c ∈ g, c < 0x80)
    (B : List Nat) :
    (decodeUtf8 B).take g.length = g ↔ B.take g.length = g := by
  induction g generalizing B with
  | nil => simp
  | cons c g' ih =>
    have hc : c < 0x80 := hg c (by simp)
    have hg' : ∀ x ∈ g', x < 0x80 := fun x hx => hg x (by simp [hx])
    constructor
    · intro h
      cases hD : decodeUtf8 B with
      | nil => rw [hD] at h; simp at h
      | cons d ds =>
        rw [hD] at h
        simp only [List.length_cons, List.take_succ_cons] at h
        obtain ⟨h1, h2⟩ : d = c ∧ ds.take g'.length = g' := by
          constructor <;> [exact (List.cons.injEq .. ▸ h).1;
            exact (List.cons.injEq .. ▸ h).2]
        subst h1
        obtain ⟨B', hB', hdecB'⟩ := decodeUtf8_cons_ascii_inv hD hc
        subst hB'
        simp only [List.length_cons, List.take_succ_cons]
        rw [(ih hg' B').mp (by rw [hdecB']; exact h2)]
    · intro h
      cases B with
      | nil => simp at h
      | cons b B' =>
        simp only [List.length_cons, List.take_succ_cons] at h
        obtain ⟨h1, h2⟩ : b = c ∧ B'.take g'.length = g' := by
          constructor <;> [exact (List.cons.injEq .. ▸ h).1;
            exact (List.cons.injEq .. ▸ h).2]
        subst h1
        rw [decodeUtf8_ascii_cons _ hc]
        simp only [List.length_cons, List.take_succ_cons]
        rw [(ih hg' B').mpr h2]

theorem utf16Step_ascii {u : Nat} (t : List Nat) (h : u < 0x80) :
    utf16Step u t = ([u], t) := by
  simp [utf16Step, h]

theorem utf8Encode_ascii {g : List Nat} (hg : ∀ c ∈ g, c < 0x80) :
    utf8Encode g = g := by
  induction g with
  | nil => rfl
  | cons u t ih =>
    have hu : u < 0x80 := hg u (by simp)
    have ht : utf8EncodeGo t.length t = t := ih (fun c hc => hg c (by simp [hc]))
    show utf8EncodeGo (u :: t).length (u :: t) = u :: t
    simp only [List.length_cons, utf8EncodeGo, utf16Step_ascii t hu]
    simp [ht]

theorem feed_ignored {greeting buf : List Nat} (data : List Nat)
    (h : greeting.length ≤ buf.length) :
    feed greeting buf data = (buf, Verdict.ignored) := by
  simp [feed, h]

theorem feedAll_inert {greeting buf : List Nat}
    (h : greeting.length ≤ buf.length) (ds : List (List Nat)) :
    (feedAll greeting buf ds).1 = buf ∧
      ∀ v ∈ (feedAll greeting buf ds).2, v = Verdict.ignored := by
  induction ds with
  | nil => simp [feedAll]
  | cons d ds ih =>
    simp only [feedAll, feed_ignored d h]
    refine ⟨ih.1, ?_⟩
    intro v hv
    simp only [List.mem_cons] at hv
    rcases hv with rfl | hv
    · rfl
    · exact ih.2 v hv

theorem finalVerdict_ignored (vs : List Verdict) :
    finalVerdict (Verdict.ignored :: vs) = finalVerdict vs := by
  simp [finalVerdict]

theorem finalVerdict_pending (vs : List Verdict) :
    finalVerdict (Verdict.pending :: vs) = finalVerdict vs := by
  simp [finalVerdict]

theorem finalVerdict_matched (vs : List Verdict) :
    finalVerdict (Verdict.matched :: vs) = some Verdict.matched := by
  simp [finalVerdict]

theorem finalVerdict_mismatched (vs : List Verdict) :
    finalVerdict (Verdict.mismatched :: vs) = some Verdict.mismatched := by
  simp [finalVerdict]

theorem finalVerdict_none_of_ignored {vs : List Verdict}
    (h : ∀ v ∈ vs, v = Verdict.ignored) : finalVerdict vs = none := by
  simp only [finalVerdict, List.find?_eq_none]
  intro v hv
  simp [h v hv]

theorem feedAll_decides {g : List Nat} (hg : ∀ c ∈ g, c < 0x80) :
    ∀ (chunks : List (List Nat)) (buf : List Nat), buf.length < g.length →
      finalVerdict (feedAll g buf chunks).2 =
        if (buf ++ chunks.flatten).length < g.length then none
        else if (buf ++ chunks.flatten).take g.length = g then some Verdict.matched
        else some Verdict.mismatched := by
  intro chunks
  induction chunks with
  | nil =>
    intro buf hb
    simp [feedAll, finalVerdict, hb]
  | cons d ds ih =>
    intro buf hb
    have hguard : ¬ g.length ≤ buf.length := Nat.not_le.mpr hb
    have hflat : buf ++ (d :: ds).flatten = (buf ++ d) ++ ds.flatten := by simp
    by_cases h2 : (buf ++ d).length < g.length
    · have hfeed : feed g buf d = (buf ++ d, Verdict.pending) := by
        unfold feed
        rw [if_neg hguard, if_pos h2]
      simp only [feedAll, hfeed, finalVerdict_pending]
      rw [ih (buf ++ d) h2, hflat]
    · have hlen2 : ¬ (buf ++ (d :: ds).flatten).length < g.length := by
        rw [hflat]
        simp only [List.length_append] at h2 ⊢
        omega
      have htake : (buf ++ (d :: ds).flatten).take g.length =
          (buf ++ d).take g.length := by
        rw [hflat]
        exact List.take_append_of_le_length (Nat.not_lt.mp h2)
      by_cases h3 : (decodeUtf8 (buf ++ d)).take g.length = g
      · have hfeed : feed g buf d = (buf ++ d, Verdict.matched) := by
          unfold feed
          rw [if_neg hguard, if_neg h2, if_pos h3]
        have hbytes : (buf ++ (d :: ds).flatten).take g.length = g := by
          rw [htake]
          exact (decodeUtf8_take_ascii hg (buf ++ d)).mp h3
        simp only [feedAll, hfeed, finalVerdict_matched]
        rw [if_neg hlen2, if_pos hbytes]
      · have hfeed : feed g buf d = (buf ++ d, Verdict.mismatched) := by
          unfold feed
          rw [if_neg hguard, if_neg h2, if_neg h3]
        have hbytes : ¬ (buf ++ (d :: ds).flatten).take g.length = g := by
          rw [htake]
          exact fun hc => h3 ((decodeUtf8_take_ascii hg (buf ++ d)).mpr hc)
        simp only [feedAll, hfeed, finalVerdict_mismatched]
        rw [if_neg hlen2, if_neg hbytes]

theorem runFeed_nil_greeting (chunks : List (List Nat)) :
    runFeed [] chunks = none :=
  finalVerdict_none_of_ignored (feedAll_inert (by simp) chunks).2

theorem runFeed_eq_specByteVerdict {g : List Nat} (hg : ∀ c ∈ g, c < 0x80)
    (hne : g ≠ []) (chunks : List (List Nat)) :
    runFeed g chunks = specByteVerdict g chunks.flatten := by
  have hlen : 0 < g.length := List.length_pos.mpr hne
  unfold runFeed specByteVerdict
  rw [feedAll_decides hg chunks [] (by simpa using hlen)]
  simp

theorem service_is_down_ips (id why : String) (st : RunState) :
    (service_is_down id why st).ipsWithGreeting = st.ipsWithGreeting := by
  unfold service_is_down
  split <;> rfl

theorem service_is_down_mem {id : String} (why : String) (st : RunState)
    (h : id ∈ st.hostsReported) : service_is_down id why st = st := by
  simp [service_is_down, h]

theorem service_is_down_not_mem {id : String} (why : String) (st : RunState)
    (h : id ∉ st.hostsReported) :
    service_is_down id why st =
      { st with
        hostsReported := st.hostsReported ++ [id]
        log := st.log ++ [(id, why.trim)] } := by
  simp [service_is_down, h]

theorem service_is_down_logFor_inv {id : String} {st : RunState}
    (h : (logFor id st).length ≤ if id ∈ st.hostsReported then 1 else 0)
    (id' why : String) :
    (logFor id (service_is_down id' why st)).length ≤
      if id ∈ (service_is_down id' why st).hostsReported then 1 else 0 := by
  by_cases hmem : id' ∈ st.hostsReported
  · rw [service_is_down_mem why st hmem]
    exact h
  · rw [service_is_down_not_mem why st hmem]
    by_cases heq : id' = id
    · subst heq
      have h0 : (logFor id' st).length = 0 := by
        rw [if_neg hmem] at h
        omega
      simp only [logFor, List.filter_append] at h0 ⊢
      simp [h0]
    · simp only [logFor, List.filter_append] at h ⊢
      have hfilter :
          List.filter (fun e => decide (e.1 = id)) [(id', why.trim)] = [] := by
        simp [heq]
      have hmem2 : (id ∈ st.hostsReported ++ [id']) ↔ id ∈ st.hostsReported := by
        constructor
        · intro hx
          rcases List.mem_append.mp hx with hx | hx
          · exact hx
          · simp only [List.mem_singleton] at hx
            exact absurd hx.symm heq
        · intro hx
          exact List.mem_append.mpr (Or.inl hx)
      rw [hfilter]
      simp only [List.length_append, List.length_nil, Nat.add_zero]
      rw [if_congr hmem2 rfl rfl]
      exact h

theorem runReports_cons (c : String × String) (cs : List (String × String))
    (st : RunState) :
    runReports (c :: cs) st = runReports cs (service_is_down c.1 c.2 st) := rfl

theorem runReports_logFor_le (id : String) (calls : List (String × String)) :
    (logFor id (runReports calls initialRunState)).length ≤ 1 := by
  suffices h : ∀ st : RunState,
      (logFor id st).length ≤ (if id ∈ st.hostsReported then 1 else 0) →
      (logFor id (runReports calls st)).length ≤
        (if id ∈ (runReports calls st).hostsReported then 1 else 0) by
    have h0 := h initialRunState (by simp [logFor, initialRunState])
    split at h0 <;> omega
  induction calls with
  | nil => intro st hst; exact hst
  | cons c cs ih =>
    intro st hst
    rw [runReports_cons]
    exact ih _ (service_is_down_logFor_inv hst c.1 c.2)

theorem tls_on_data_run_ips {g : List Nat} (verbose : Bool) (ip0 : String)
    (data buf : List Nat) (st : RunState) {ip : String}
    (h : ip ∈ st.ipsWithGreeting) :
    ip ∈ (tls_on_data g verbose ip0 data buf st).2.1.ipsWithGreeting := by
  unfold tls_on_data
  rcases hf : feed g buf data with ⟨buf', v⟩
  cases v
  · exact h
  · exact h
  · exact List.mem_append.mpr (Or.inl h)
  · show ip ∈ (service_is_down ip0 "unexpected greeting" st).ipsWithGreeting
    rw [service_is_down_ips]
    exact h

theorem stepEvent_ips_mono {g : List Nat} {verbose : Bool} {st : SysState}
    {ip : String} (e : Event) (h : ip ∈ st.run.ipsWithGreeting) :
    ip ∈ (stepEvent g verbose st e).run.ipsWithGreeting := by
  cases e with
  | data ip' bytes =>
    exact tls_on_data_run_ips verbose ip' bytes (getBuf st.bufs ip') st.run h
  | close ip' =>
    show ip ∈ (check_ip_on_close ip' st.run).ipsWithGreeting
    unfold check_ip_on_close
    split
    · exact h
    · rw [service_is_down_ips]
      exact h
  | err ip' msg =>
    show ip ∈ (service_is_down ip' ("error: " ++ msg) st.run).ipsWithGreeting
    rw [service_is_down_ips]
    exact h
  | timeout ip' =>
    show ip ∈ (service_is_down ip' "timeout" st.run).ipsWithGreeting
    rw [service_is_down_ips]
    exact h
  | tlsErr ip' msg =>
    show ip ∈ (service_is_down ip' ("TLS error: " ++ msg) st.run).ipsWithGreeting
    rw [service_is_down_ips]
    exact h

theorem runEvents_ips_mono {g : List Nat} {verbose : Bool} {ip : String} :
    ∀ (evs : List Event) (st : SysState), ip ∈ st.run.ipsWithGreeting →
      ip ∈ (runEvents g verbose evs st).run.ipsWithGreeting := by
  intro evs
  induction evs with
  | nil => intro st h; exact h
  | cons e evs ih => intro st h; exact ih _ (stepEvent_ips_mono e h)

theorem feed_nil_greeting (buf data : List Nat) :
    feed [] buf data = (buf, Verdict.ignored) :=
  feed_ignored data (by simp)

theorem tls_on_data_nil_greeting (verbose : Bool) (ip : String)
    (data buf : List Nat) (st : RunState) :
    tls_on_data [] verbose ip data buf st = (buf, st, []) := by
  unfold tls_on_data
  rw [feed_nil_greeting]

theorem runEvents_data_nil_greeting (verbose : Bool) (ip : String) :
    ∀ (chunks : List (List Nat)) (st : SysState),
      (runEvents [] verbose (chunks.map (Event.data ip)) st).run = st.run := by
  intro chunks
  induction chunks with
  | nil => intro st; rfl
  | cons c cs ih =>
    intro st
    have hstep : (stepEvent [] verbose st (Event.data ip c)).run = st.run := by
      simp [stepEvent, tls_on_data_nil_greeting]
    calc (runEvents [] verbose ((c :: cs).map (Event.data ip)) st).run
        = (runEvents [] verbose (cs.map (Event.data ip))
            (stepEvent [] verbose st (Event.data ip c))).run := rfl
      _ = (stepEvent [] verbose st (Event.data ip c)).run := ih _
      _ = st.run := hstep

/-- C1: for every identifier and every sequence of calls to the Reporter
(`service_is_down`), the down-report is delivered at most once per run for
that identifier: the first call with an identifier not yet in the reported
set inserts it and emits the log line, and every later call with the same
identifier is a no-op that leaves the set and the output unchanged. (The
spec's notification forwarding sits in the same guarded branch as the log
line, so the single emission event stands for both.) -/
theorem C1_reporter_at_most_once :
    (∀ (id why : String) (st : RunState), id ∈ st.hostsReported →
        service_is_down id why st = st) ∧
    (∀ (id why : String) (st : RunState), id ∉ st.hostsReported →
        (service_is_down id why st).hostsReported = st.hostsReported ++ [id] ∧
        (service_is_down id why st).log = st.log ++ [(id, why.trim)]) ∧
    (∀ (calls : List (String × String)) (id : String),
        (logFor id (runReports calls initialRunState)).length ≤ 1) := by
  refine ⟨?_, ?_, ?_⟩
  · intro id why st h
    exact service_is_down_mem why st h
  · intro id why st h
    rw [service_is_down_not_mem why st h]
    exact ⟨rfl, rfl⟩
  · intro calls id
    exact runReports_logFor_le id calls

/-- Witness for C1 at a concrete input: an identifier already in the
reported set makes a further `service_is_down` call a no-op. -/
theorem C1_witness :
    "10.0.0.1" ∈ (RunState.mk [] ["10.0.0.1"] []).hostsReported ∧
    service_is_down "10.0.0.1" "timeout" (RunState.mk [] ["10.0.0.1"] []) =
      RunState.mk [] ["10.0.0.1"] [] :=
  ⟨by decide, C1_reporter_at_most_once.1 "10.0.0.1" "timeout"
    (RunState.mk [] ["10.0.0.1"] []) (by decide)⟩

/-- C2 counterexample: when DNS resolution succeeds with zero addresses, the
code launches no per-address checkers but also emits no down-report at all —
`check_host` returns the state unchanged with an empty launch list, so the
log does not contain exactly one "DNS error" entry as the claim requires. -/
theorem C2_counterexample :
    check_host "irc.summercat.com" (DnsResult.ok []) initialRunState =
      (initialRunState, []) ∧
    (check_host "irc.summercat.com" (DnsResult.ok [])
        initialRunState).1.log.length ≠ 1 :=
  ⟨rfl, by decide⟩

/-- C2 (amended): when DNS resolution fails, `check_host` emits exactly one
down-report keyed on the hostname with reason `"DNS error: <code>"` and
launches zero per-address checkers; when resolution succeeds with zero
addresses, it launches zero checkers but emits no report at all. -/
theorem C2_dns_failure_report :
    (∀ (hostname code : String) (st : RunState), hostname ∉ st.hostsReported →
        (check_host hostname (DnsResult.err code) st).1.log =
          st.log ++ [(hostname, ("DNS error: " ++ code).trim)] ∧
        (check_host hostname (DnsResult.err code) st).1.hostsReported =
          st.hostsReported ++ [hostname] ∧
        (check_host hostname (DnsResult.err code) st).2 = []) ∧
    (∀ (hostname : String) (st : RunState),
        check_host hostname (DnsResult.ok []) st = (st, [])) := by
  constructor
  · intro hostname code st h
    have hrfl : check_host hostname (DnsResult.err code) st =
        (service_is_down hostname ("DNS error: " ++ code) st, []) := rfl
    rw [hrfl, service_is_down_not_mem _ st h]
    exact ⟨rfl, rfl, rfl⟩
  · intro hostname st
    rfl

/-- Witness for C2 (amended) at a concrete input: a failed lookup launches no
checkers. -/
theorem C2_witness :
    "irc.summercat.com" ∉ initialRunState.hostsReported ∧
    (check_host "irc.summercat.com" (DnsResult.err "ENOTFOUND")
        initialRunState).2 = [] :=
  ⟨by decide, (C2_dns_failure_report.1 "irc.summercat.com" "ENOTFOUND"
    initialRunState (by decide)).2.2⟩

/-- C3 counterexample: take expected greeting `G = [0xC1]` (the JS string
"Á", whose byte string is its UTF-8 encoding `[0xC3, 0x81]`) and a stream
whose bytes are exactly `G`'s bytes, delivered one byte at a time. Comparing
the first `len(G)` bytes of the buffer byte-for-byte against `G` yields
MATCHED (`specByteVerdict`), but the code renders MISMATCHED: the comparison
is made on UTF-8-decoded code units after only one byte arrived, so the
claimed byte-exact behaviour fails for arbitrary (non-ASCII) byte values. -/
theorem C3_counterexample :
    utf8Encode [0xC1] = [0xC3, 0x81] ∧
    specByteVerdict (utf8Encode [0xC1]) [0xC3, 0x81] = some Verdict.matched ∧
    runFeed [0xC1] [[0xC3], [0x81]] = some Verdict.mismatched := by
  refine ⟨by decide, by decide, by decide⟩

/-- C3 (amended): the code decides the verdict by comparing the first
`len(G)` UTF-16 code units of the UTF-8-decoded buffer against `G`; when the
expected greeting is ASCII-only this coincides with byte-for-byte comparison
of the first `len(G)` bytes of the total received stream (the greeting's
byte string is `G` itself, and the final verdict is MATCHED iff those bytes
equal `G`, MISMATCHED otherwise, once `len(G)` bytes have accumulated), but
for non-ASCII greetings it is not byte-exact. -/
theorem C3_ascii_byte_exact (g : List Nat) (hg : ∀ c ∈ g, c < 0x80)
    (hne : g ≠ []) :
    utf8Encode g = g ∧
    ∀ chunks : List (List Nat),
      runFeed g chunks = specByteVerdict g chunks.flatten :=
  ⟨utf8Encode_ascii hg, fun chunks => runFeed_eq_specByteVerdict hg hne chunks⟩

/-- Witness for C3 (amended) with the configured greeting "NOTICE AUTH"
(code units `[78, 79, 84, 73, 67, 69, 32, 65, 85, 84, 72]`). -/
theorem C3_witness :
    (∀ c ∈ [78, 79, 84, 73, 67, 69, 32, 65, 85, 84, 72], c < 0x80) ∧
    ([78, 79, 84, 73, 67, 69, 32, 65, 85, 84, 72] : List Nat) ≠ [] ∧
    runFeed [78, 79, 84, 73, 67, 69, 32, 65, 85, 84, 72]
        [[78, 79], [84, 73, 67, 69, 32, 65, 85, 84, 72]] =
      specByteVerdict [78, 79, 84, 73, 67, 69, 32, 65, 85, 84, 72]
        ([[78, 79], [84, 73, 67, 69, 32, 65, 85, 84, 72]] :
          List (List Nat)).flatten :=
  ⟨by decide, by decide,
    (C3_ascii_byte_exact [78, 79, 84, 73, 67, 69, 32, 65, 85, 84, 72]
      (by decide) (by decide)).2 [[78, 79], [84, 73, 67, 69, 32, 65, 85, 84, 72]]⟩

/-- C4 counterexample: with expected greeting `[0xC1]` ("Á"), the total
input `[0xC3, 0x81]` delivered as one chunk yields MATCHED while the same
bytes delivered one at a time yield MISMATCHED — chunking-invariance fails. -/
theorem C4_counterexample :
    ([[0xC3, 0x81]] : List (List Nat)).flatten =
      ([[0xC3], [0x81]] : List (List Nat)).flatten ∧
    runFeed [0xC1] [[0xC3, 0x81]] = some Verdict.matched ∧
    runFeed [0xC1] [[0xC3], [0x81]] = some Verdict.mismatched := by
  refine ⟨by decide, by decide, by decide⟩

/-- C4 (amended): for ASCII-only expected greetings, chunking-invariance
holds: any two chunkings of the same total byte sequence produce the same
final verdict (for non-ASCII greetings it can fail, per the
counterexample). -/
theorem C4_chunking_invariance_ascii (g : List Nat) (hg : ∀ c ∈ g, c < 0x80)
    (chunks1 chunks2 : List (List Nat))
    (h : chunks1.flatten = chunks2.flatten) :
    runFeed g chunks1 = runFeed g chunks2 := by
  rcases eq_or_ne g [] with rfl | hne
  · rw [runFeed_nil_greeting, runFeed_nil_greeting]
  · rw [runFeed_eq_specByteVerdict hg hne, runFeed_eq_specByteVerdict hg hne, h]

/-- Witness for C4 (amended) at a concrete input. -/
theorem C4_witness :
    (∀ c ∈ [65, 66], c < 0x80) ∧
    ([[65], [66]] : List (List Nat)).flatten =
      ([[65, 66]] : List (List Nat)).flatten ∧
    runFeed [65, 66] [[65], [66]] = runFeed [65, 66] [[65, 66]] :=
  ⟨by decide, by decide,
    C4_chunking_invariance_ascii [65, 66] (by decide) [[65], [66]] [[65, 66]]
      (by decide)⟩

/-- C5: the close handler reports `"greeting not found"` iff no MATCHED has
been recorded for that ip: when `ip` is not in `IPS_WITH_GREETING` the
handler calls `service_is_down ip "greeting not found"`, when it is the
handler leaves everything unchanged; and once an ip is recorded as matched,
a close event arriving after any further events in the run still leaves the
state unchanged, so a matched ip is never reported "greeting not found" for
the rest of the run. -/
theorem C5_close_iff_unmatched :
    (∀ (ip : String) (st : RunState), ip ∉ st.ipsWithGreeting →
        check_ip_on_close ip st = service_is_down ip "greeting not found" st) ∧
    (∀ (ip : String) (st : RunState), ip ∈ st.ipsWithGreeting →
        check_ip_on_close ip st = st) ∧
    (∀ (g : List Nat) (verbose : Bool) (evs : List Event) (st : SysState)
        (ip : String), ip ∈ st.run.ipsWithGreeting →
        (stepEvent g verbose (runEvents g verbose evs st)
            (Event.close ip)).run = (runEvents g verbose evs st).run) := by
  have h2 : ∀ (ip : String) (st : RunState), ip ∈ st.ipsWithGreeting →
      check_ip_on_close ip st = st := by
    intro ip st h
    simp [check_ip_on_close, h]
  refine ⟨?_, h2, ?_⟩
  · intro ip st h
    simp [check_ip_on_close, h]
  · intro g verbose evs st ip h
    show check_ip_on_close ip (runEvents g verbose evs st).run = _
    exact h2 ip _ (runEvents_ips_mono evs st h)

/-- Witness for C5 at a concrete input: a close event for a matched ip is a
no-op. -/
theorem C5_witness :
    "10.0.0.1" ∈
      (SysState.mk (RunState.mk ["10.0.0.1"] [] []) []).run.ipsWithGreeting ∧
    (stepEvent [] false
        (runEvents [] false [] (SysState.mk (RunState.mk ["10.0.0.1"] [] []) []))
        (Event.close "10.0.0.1")).run =
      (runEvents [] false []
        (SysState.mk (RunState.mk ["10.0.0.1"] [] []) [])).run :=
  ⟨by decide, C5_close_iff_unmatched.2.2 [] false []
    (SysState.mk (RunState.mk ["10.0.0.1"] [] []) []) "10.0.0.1" (by decide)⟩

/-- C6: once the accumulated buffer length has reached the greeting length,
every subsequent feed is ignored: the data handler returns before touching
anything, so the buffer does not grow, no comparison is repeated, and the
run state (matched/reported sets, log) and actions are unchanged — under any
further sequence of chunks. -/
theorem C6_matcher_inert (g buf : List Nat) (h : g.length ≤ buf.length) :
    (∀ data : List Nat, feed g buf data = (buf, Verdict.ignored)) ∧
    (∀ (verbose : Bool) (ip : String) (data : List Nat) (st : RunState),
        tls_on_data g verbose ip data buf st = (buf, st, [])) ∧
    (∀ ds : List (List Nat), (feedAll g buf ds).1 = buf ∧
        ∀ v ∈ (feedAll g buf ds).2, v = Verdict.ignored) := by
  refine ⟨fun data => feed_ignored data h, ?_, fun ds => feedAll_inert h ds⟩
  intro verbose ip data st
  unfold tls_on_data
  rw [feed_ignored data h]

/-- Witness for C6 at a concrete input. -/
theorem C6_witness :
    ([65] : List Nat).length ≤ ([66] : List Nat).length ∧
    feed [65] [66] [67] = ([66], Verdict.ignored) :=
  ⟨by decide, (C6_matcher_inert [65] [66] (by decide)).1 [67]⟩

/-- C7 counterexample: on the TLS handshake-error path the code calls
`socket.end()` — a graceful shutdown — rather than `client.destroy()`: the
connection is not forcibly destroyed, contradicting the claim for that
error path (the greeting-mismatch path behaves the same way). -/
theorem C7_counterexample :
    (tls_on_error "192.0.2.1" "handshake failure" initialRunState).2 =
      [SockAction.endSocket] ∧
    SockAction.endSocket ≠ SockAction.destroy :=
  ⟨rfl, by decide⟩

/-- C7 (amended): the TCP-error and timeout handlers forcibly destroy the
connection (`client.destroy()`), while the TLS-error handler and the
greeting-mismatch path of the data handler instead perform a graceful
`socket.end()` shutdown. -/
theorem C7_teardown_by_path :
    (∀ (ip msg : String) (st : RunState),
        (check_ip_on_error ip msg st).2 = [SockAction.destroy]) ∧
    (∀ (ip : String) (st : RunState),
        (check_ip_on_timeout ip st).2 = [SockAction.destroy]) ∧
    (∀ (ip msg : String) (st : RunState),
        (tls_on_error ip msg st).2 = [SockAction.endSocket]) ∧
    (∀ (g : List Nat) (verbose : Bool) (ip : String) (data buf : List Nat)
        (st : RunState), (feed g buf data).2 = Verdict.mismatched →
        (tls_on_data g verbose ip data buf st).2.2 = [SockAction.endSocket]) := by
  refine ⟨fun ip msg st => rfl, fun ip st => rfl, fun ip msg st => rfl, ?_⟩
  intro g verbose ip data buf st h
  unfold tls_on_data
  rcases hf : feed g buf data with ⟨buf', v⟩
  rw [hf] at h
  cases v <;> simp_all

/-- Witness for C7 (amended) at a concrete mismatching input. -/
theorem C7_witness :
    (feed [65] [] [66]).2 = Verdict.mismatched ∧
    (tls_on_data [65] false "192.0.2.1" [66] [] initialRunState).2.2 =
      [SockAction.endSocket] :=
  ⟨by decide, C7_teardown_by_path.2.2.2 [65] false "192.0.2.1" [66] []
    initialRunState (by decide)⟩

/-- C8: the reported-identifier set is scoped to a single run: at run start
it is the freshly initialised empty array (`initialRunState`), runs share no
state (each run in a sequence evaluates from `initialRunState`), and a host
that is down in each of `n` consecutive runs is reported in every one of
them. -/
theorem C8_run_scoped :
    initialRunState.ipsWithGreeting = [] ∧
    initialRunState.hostsReported = [] ∧
    initialRunState.log = [] ∧
    (∀ (n : Nat) (id why : String),
        ∀ r ∈ doRuns (List.replicate n [(id, why)]),
          r.log = [(id, why.trim)]) := by
  refine ⟨rfl, rfl, rfl, ?_⟩
  intro n id why r hr
  rcases List.mem_map.mp hr with ⟨calls, hcalls, rfl⟩
  have hc : calls = [(id, why)] := List.eq_of_mem_replicate hcalls
  subst hc
  show (service_is_down id why initialRunState).log = _
  rw [service_is_down_not_mem why initialRunState (by simp [initialRunState])]
  simp [initialRunState]

/-- Witness for C8: with two consecutive runs each seeing the host down, the
first run (an arbitrary member of the sequence) emits the report. -/
theorem C8_witness :
    runReports [("203.0.113.7", "timeout")] initialRunState ∈
      doRuns (List.replicate 2 [("203.0.113.7", "timeout")]) ∧
    (runReports [("203.0.113.7", "timeout")] initialRunState).log =
      [("203.0.113.7", ("timeout" : String).trim)] :=
  ⟨List.mem_map.mpr ⟨[("203.0.113.7", "timeout")],
    List.mem_replicate.mpr ⟨by decide, rfl⟩, rfl⟩,
   C8_run_scoped.2.2.2 2 "203.0.113.7" "timeout" _
    (List.mem_map.mpr ⟨[("203.0.113.7", "timeout")],
      List.mem_replicate.mpr ⟨by decide, rfl⟩, rfl⟩)⟩

/-- C9: the timeout handler is not guarded by matched status: from any state
in which `ip` has been recorded as matched but never reported, a timeout
event still calls `service_is_down ip "timeout"`, which — as `ip` is not in
the reported set — emits a down-report for an ip whose greeting was
confirmed (the ip stays recorded as matched). -/
theorem C9_timeout_not_guarded (g : List Nat) (verbose : Bool) (ip : String)
    (st : SysState) (hmatched : ip ∈ st.run.ipsWithGreeting)
    (hnot : ip ∉ st.run.hostsReported) :
    ip ∈ (stepEvent g verbose st (Event.timeout ip)).run.ipsWithGreeting ∧
    (stepEvent g verbose st (Event.timeout ip)).run.log =
      st.run.log ++ [(ip, ("timeout" : String).trim)] ∧
    (stepEvent g verbose st (Event.timeout ip)).run.hostsReported =
      st.run.hostsReported ++ [ip] := by
  have hstep : (stepEvent g verbose st (Event.timeout ip)).run =
      service_is_down ip "timeout" st.run := rfl
  rw [hstep, service_is_down_not_mem _ _ hnot]
  exact ⟨hmatched, rfl, rfl⟩

/-- Witness for C9: after a data event that matches the greeting `[65]`,
the ip is recorded as matched and unreported, and a timeout event then adds
it to the reported set (emitting the "timeout" report). -/
theorem C9_witness :
    "198.51.100.1" ∈ (stepEvent [65] true initialSysState
        (Event.data "198.51.100.1" [65])).run.ipsWithGreeting ∧
    "198.51.100.1" ∉ (stepEvent [65] true initialSysState
        (Event.data "198.51.100.1" [65])).run.hostsReported ∧
    (stepEvent [65] true
        (stepEvent [65] true initialSysState (Event.data "198.51.100.1" [65]))
        (Event.timeout "198.51.100.1")).run.hostsReported =
      (stepEvent [65] true initialSysState
        (Event.data "198.51.100.1" [65])).run.hostsReported ++
        ["198.51.100.1"] :=
  ⟨by decide, by decide,
    (C9_timeout_not_guarded [65] true "198.51.100.1"
      (stepEvent [65] true initialSysState (Event.data "198.51.100.1" [65]))
      (by decide) (by decide)).2.2⟩

/-- C10: with an empty expected greeting the data handler returns
immediately on every chunk (buffer length 0 is already ≥ greeting length 0)
without recording a match, so any sequence of data deliveries leaves the run
state untouched and the connection's close event then reports
`"greeting not found"` — even though the server sent data. -/
theorem C10_empty_greeting_reports (verbose : Bool) (ip : String)
    (chunks : List (List Nat)) :
    (∀ (buf data : List Nat) (st : RunState),
        tls_on_data [] verbose ip data buf st = (buf, st, [])) ∧
    (runEvents [] verbose (chunks.map (Event.data ip) ++ [Event.close ip])
        initialSysState).run.log =
      [(ip, ("greeting not found" : String).trim)] := by
  refine ⟨fun buf data st => tls_on_data_nil_greeting verbose ip data buf st, ?_⟩
  have hsplit : runEvents [] verbose
      (chunks.map (Event.data ip) ++ [Event.close ip]) initialSysState =
      stepEvent [] verbose
        (runEvents [] verbose (chunks.map (Event.data ip)) initialSysState)
        (Event.close ip) := by
    unfold runEvents
    rw [List.foldl_append]
    rfl
  rw [hsplit]
  show (check_ip_on_close ip
    (runEvents [] verbose (chunks.map (Event.data ip)) initialSysState).run).log = _
  rw [runEvents_data_nil_greeting verbose ip chunks initialSysState]
  unfold check_ip_on_close
  rw [if_neg (by simp [initialSysState, initialRunState]),
    service_is_down_not_mem _ _ (by simp [initialSysState, initialRunState])]
  simp [initialSysState, initialRunState]
